import Mathlib

/-!
# Verification of the controller_exercise repository

Shallow embedding of the Go sources:
* `githubissue-operator/internal/controller` — the `GitHubIssueReconciler.Reconcile`
  state machine and the `labelsMatch` helper;
* `githubissue-operator/pkg/providers` — the `Issue`/input types, the live
  `GitHubProvider.Update` request construction, and the in-memory `MockProvider`;
* `main.go` — the namespace-labelling control loop driver and its `reconcile`
  function.

Pure functions become Lean functions; the stateful controller becomes explicit
state passing over a `Cluster` (the control-plane store restricted to the one
object and the secrets of its namespace, as in the tests) and a provider state
threaded through a record of operations.  Remote calls made during one
reconciliation are recorded in a trace so that call counts can be stated.
-/

namespace ControllerExercise

/-! ## Provider data types (pkg/providers/provider.go) -/

/-- `Issue` — a remote issue as seen through the provider interface. -/
structure Issue where
  number : Int
  url : String
  state : String
  title : String
  body : String
  labels : List String
deriving Repr, DecidableEq

/-- `CreateIssueInput` — data needed to create an issue. -/
structure CreateIssueInput where
  repo : String
  title : String
  body : String
  labels : List String
deriving Repr, DecidableEq

/-- `UpdateIssueInput` — data needed to update an issue.  In Go, `Title` and
`Body` are strings where the empty string means "no change", and `Labels` is a
`[]string` where `nil` means "no change" and an empty non-nil slice clears the
labels; the nil/non-nil distinction is modelled with `Option`. -/
structure UpdateIssueInput where
  title : String
  body : String
  labels : Option (List String)
deriving Repr, DecidableEq

/-! ## labelsMatch (internal/controller/githubissue_controller.go)

Go's `sort.Strings` sorts ascending in byte-lexicographic order; since UTF-8
byte order coincides with code-point order, we model it as sorting in the
lexicographic order on the code points of the characters.  The comparison is
written out over `Char.toNat` so that it reduces in the kernel. -/

/-- Lexicographic (code-point) comparison of character lists. -/
def charListLe : List Char → List Char → Bool
  | [], _ => true
  | _ :: _, [] => false
  | a :: as, b :: bs =>
    if a.toNat < b.toNat then true
    else if b.toNat < a.toNat then false
    else charListLe as bs

/-- String comparison used by the model of `sort.Strings`. -/
def strLe (a b : String) : Prop := charListLe a.data b.data = true

instance : DecidableRel strLe := fun a b => by
  unfold strLe; infer_instance

theorem charListLe_total : ∀ as bs : List Char,
    charListLe as bs = true ∨ charListLe bs as = true := by
  intro as
  induction as with
  | nil => intro bs; left; rfl
  | cons a as ih =>
    intro bs
    cases bs with
    | nil => right; rfl
    | cons b bs =>
      by_cases hab : a.toNat < b.toNat
      · left; simp [charListLe, hab]
      · by_cases hba : b.toNat < a.toNat
        · right; simp [charListLe, hba]
        · rcases ih bs with h | h
          · left; simp [charListLe, hab, hba, h]
          · right; simp [charListLe, hab, hba, h]

theorem charListLe_trans : ∀ as bs cs : List Char,
    charListLe as bs = true → charListLe bs cs = true → charListLe as cs = true := by
  intro as
  induction as with
  | nil => intro bs cs _ _; rfl
  | cons a as ih =>
    intro bs cs h₁ h₂
    cases bs with
    | nil => simp [charListLe] at h₁
    | cons b bs =>
      cases cs with
      | nil => simp [charListLe] at h₂
      | cons c cs =>
        simp only [charListLe] at h₁ h₂ ⊢
        by_cases hab : a.toNat < b.toNat
        · by_cases hbc : b.toNat < c.toNat
          · simp [show a.toNat < c.toNat by omega]
          · by_cases hcb : c.toNat < b.toNat
            · simp [hbc, hcb] at h₂
            · simp [show a.toNat < c.toNat by omega]
        · by_cases hba : b.toNat < a.toNat
          · simp [hab, hba] at h₁
          · by_cases hbc : b.toNat < c.toNat
            · simp [show a.toNat < c.toNat by omega]
            · by_cases hcb : c.toNat < b.toNat
              · simp [hbc, hcb] at h₂
              · have h₁' : charListLe as bs = true := by simpa [hab, hba] using h₁
                have h₂' : charListLe bs cs = true := by simpa [hbc, hcb] using h₂
                have hac : ¬ a.toNat < c.toNat := by omega
                have hca : ¬ c.toNat < a.toNat := by omega
                simp [hac, hca, ih bs cs h₁' h₂']

theorem charListLe_antisymm : ∀ as bs : List Char,
    charListLe as bs = true → charListLe bs as = true → as = bs := by
  intro as
  induction as with
  | nil =>
    intro bs _ h₂
    cases bs with
    | nil => rfl
    | cons b bs => simp [charListLe] at h₂
  | cons a as ih =>
    intro bs h₁ h₂
    cases bs with
    | nil => simp [charListLe] at h₁
    | cons b bs =>
      simp only [charListLe] at h₁ h₂
      by_cases hab : a.toNat < b.toNat
      · have hba : ¬ b.toNat < a.toNat := by omega
        simp [hab, hba] at h₂
      · by_cases hba : b.toNat < a.toNat
        · simp [hab, hba] at h₁
        · have hval : a = b := by
            apply Char.ext
            have : a.toNat = b.toNat := by omega
            unfold Char.toNat at this
            exact UInt32.toNat.inj this
          subst hval
          simp only [hab, if_false, ite_false] at h₁ h₂
          rw [ih bs (by simpa [hab] using h₁) (by simpa [hab] using h₂)]

instance : IsTotal String strLe :=
  ⟨fun a b => charListLe_total a.data b.data⟩

instance : IsTrans String strLe :=
  ⟨fun a b c => charListLe_trans a.data b.data c.data⟩

instance : IsAntisymm String strLe :=
  ⟨fun a b h₁ h₂ => by
    cases a; cases b
    exact congrArg String.mk (charListLe_antisymm _ _ h₁ h₂)⟩

/-- Sorting as done by `sort.Strings` on a cloned slice. -/
def sortStrings (l : List String) : List String :=
  List.insertionSort strLe l

/-- `labelsMatch` checks if two label slices contain the same elements
(order-independent): length comparison, then clone, `sort.Strings` on
both copies, and `slices.Equal` on the sorted copies. -/
def labelsMatch (a b : List String) : Bool :=
  if a.length ≠ b.length then false
  else sortStrings a == sortStrings b

example : labelsMatch ["bug", "ui"] ["ui", "bug"] = true := by decide

example : labelsMatch ["a", "a", "b"] ["a", "b", "b"] = false := by decide

/-- `labelsMatch` decides permutation (multiset) equality of the two lists. -/
theorem labelsMatch_iff_perm (a b : List String) :
    labelsMatch a b = true ↔ a.Perm b := by
  unfold labelsMatch
  by_cases hl : a.length = b.length
  · simp only [hl, ne_eq, not_true_eq_false, if_false, ite_false, beq_iff_eq]
    constructor
    · intro h
      have h' : List.insertionSort strLe a = List.insertionSort strLe b := h
      have p1 : a.Perm (List.insertionSort strLe a) :=
        (List.perm_insertionSort strLe a).symm
      rw [h'] at p1
      exact p1.trans (List.perm_insertionSort strLe b)
    · intro h
      apply List.eq_of_perm_of_sorted
        ((List.perm_insertionSort strLe a).trans
          (h.trans (List.perm_insertionSort strLe b).symm))
        (List.sorted_insertionSort strLe a) (List.sorted_insertionSort strLe b)
  · simp only [ne_eq, hl, not_false_eq_true, if_true, ite_true]
    constructor
    · intro h; exact absurd h (by simp)
    · intro h; exact absurd h.length_eq hl

/-! ## Mock provider (pkg/providers/mock.go)

The `MockProvider` keeps a map from keys `"repo#number"` to issues, a
`nextNumber` counter, four call counters, and optional per-call override
functions.  Since the number printed after the final `#` contains no `#`,
the key determines the `(repo, number)` pair uniquely, so the map is
modelled with `(String × Int)` keys.  The override hooks (`CreateFunc`,
`GetFunc`, `UpdateFunc`, `CloseFunc`) are modelled in their default `nil`
state, as produced by `NewMockProvider`. -/

/-- State of a `MockProvider` (override hooks unset). -/
structure MockState where
  issues : List ((String × Int) × Issue)
  nextNumber : Int
  createCalled : Nat
  getCalled : Nat
  updateCalled : Nat
  closeCalled : Nat
deriving Repr, DecidableEq

/-- `NewMockProvider` creates a new MockProvider. -/
def NewMockProvider : MockState :=
  { issues := [], nextNumber := 1,
    createCalled := 0, getCalled := 0, updateCalled := 0, closeCalled := 0 }

/-- Store `v` under key `k`, replacing an existing binding (Go map write). -/
def mapSet (l : List ((String × Int) × Issue)) (k : String × Int) (v : Issue) :
    List ((String × Int) × Issue) :=
  match l with
  | [] => [(k, v)]
  | (k', v') :: rest => if k' = k then (k, v) :: rest else (k', v') :: mapSet rest k v

/-- `MockProvider.Create`: count the call, then build the issue from the
input with number `nextNumber`, state `"open"` and the GitHub-style URL,
store it, and advance `nextNumber`. -/
def mockCreate (m : MockState) (_token : String) (input : CreateIssueInput) :
    MockState × Except Unit Issue :=
  let m := { m with createCalled := m.createCalled + 1 }
  let issue : Issue :=
    { number := m.nextNumber
      url := "https://github.com/" ++ input.repo ++ "/issues/" ++ toString m.nextNumber
      state := "open"
      title := input.title
      body := input.body
      labels := input.labels }
  ({ m with issues := mapSet m.issues (input.repo, m.nextNumber) issue,
            nextNumber := m.nextNumber + 1 },
   Except.ok issue)

/-- `MockProvider.Get`: count the call, then look the issue up; a missing
key is an `issue not found` error. -/
def mockGet (m : MockState) (_token repo : String) (issueNumber : Int) :
    MockState × Except Unit Issue :=
  let m := { m with getCalled := m.getCalled + 1 }
  match m.issues.lookup (repo, issueNumber) with
  | none => (m, Except.error ())
  | some issue => (m, Except.ok issue)

/-- `MockProvider.Update`: count the call, look the issue up (missing key is
an error), then overwrite title and body only when the input field is
non-empty, and labels only when the input slice is non-nil. -/
def mockUpdate (m : MockState) (_token repo : String) (issueNumber : Int)
    (input : UpdateIssueInput) : MockState × Except Unit Issue :=
  let m := { m with updateCalled := m.updateCalled + 1 }
  match m.issues.lookup (repo, issueNumber) with
  | none => (m, Except.error ())
  | some issue =>
    let issue :=
      { issue with
        title := if input.title ≠ "" then input.title else issue.title
        body := if input.body ≠ "" then input.body else issue.body
        labels := match input.labels with
          | none => issue.labels
          | some ls => ls }
    ({ m with issues := mapSet m.issues (repo, issueNumber) issue }, Except.ok issue)

/-- `MockProvider.Close`: count the call, look the issue up (missing key is
an error), and set its state to `"closed"`. -/
def mockClose (m : MockState) (_token repo : String) (issueNumber : Int) :
    MockState × Except Unit Unit :=
  let m := { m with closeCalled := m.closeCalled + 1 }
  match m.issues.lookup (repo, issueNumber) with
  | none => (m, Except.error ())
  | some issue =>
    ({ m with issues := mapSet m.issues (repo, issueNumber) { issue with state := "closed" } },
     Except.ok ())

/-- `MockProvider.Reopen`: look the issue up (missing key is an error) and
set its state to `"open"`.  Note: unlike the other four operations, `Reopen`
increments no call counter. -/
def mockReopen (m : MockState) (_token repo : String) (issueNumber : Int) :
    MockState × Except Unit Unit :=
  match m.issues.lookup (repo, issueNumber) with
  | none => (m, Except.error ())
  | some issue =>
    ({ m with issues := mapSet m.issues (repo, issueNumber) { issue with state := "open" } },
     Except.ok ())

/-- `MockProvider.GetIssue`: inspection access to a stored issue, bypassing
the counting `Get` path. -/
def mockGetIssue (m : MockState) (repo : String) (number : Int) : Option Issue :=
  m.issues.lookup (repo, number)

/-- The `/stats` endpoint of `MockProvider.Handler`: the counters snapshot,
a map with one entry per tracked counter plus the number of stored issues. -/
def statsSnapshot (m : MockState) : List (String × Nat) :=
  [("createCalled", m.createCalled),
   ("getCalled", m.getCalled),
   ("updateCalled", m.updateCalled),
   ("closeCalled", m.closeCalled),
   ("totalIssues", m.issues.length)]

/-! ## Live GitHub adapter (pkg/providers/github.go) -/

/-- `parseRepo` splits `"owner/repo"` into owner and repo parts; any other
shape of the split is an error. -/
def parseRepo (repo : String) : Except String (String × String) :=
  match repo.splitOn "/" with
  | [owner, repoName] => Except.ok (owner, repoName)
  | _ => Except.error ("invalid repo format " ++ repo ++ ", expected owner/repo")

/-- The fields of a `github.IssueRequest` that `GitHubProvider` ever sets:
a `none` field is absent from the serialized request. -/
structure IssueRequest where
  title : Option String := none
  body : Option String := none
  labels : Option (List String) := none
  state : Option String := none
deriving Repr, DecidableEq

/-- The `github.IssueRequest` built by `GitHubProvider.Update`: title and
body are included only when non-empty, labels only when the input slice is
non-nil, and the state field is never set. -/
def ghUpdateRequest (input : UpdateIssueInput) : IssueRequest :=
  { title := if input.title ≠ "" then some input.title else none
    body := if input.body ≠ "" then some input.body else none
    labels := input.labels
    state := none }

/-- Modelled from the spec: the remote ticketing system's edit operation
(`client.Issues.Edit`, external to this repository) applies exactly the
fields present in the request and leaves every absent field unchanged; a
present labels list replaces the whole label set (an empty list clears it). -/
def remoteApplyEdit (req : IssueRequest) (iss : Issue) : Issue :=
  { iss with
    title := req.title.getD iss.title
    body := req.body.getD iss.body
    labels := req.labels.getD iss.labels
    state := req.state.getD iss.state }

/-- `GitHubProvider.Update` acting on a remote issue `remote`: parse the
repo (an invalid repo is an error and no edit is sent), build the request,
and let the remote system apply it. -/
def ghUpdate (remote : Issue) (repoStr : String) (input : UpdateIssueInput) :
    Except String Issue :=
  match parseRepo repoStr with
  | Except.error e => Except.error e
  | Except.ok _ => Except.ok (remoteApplyEdit (ghUpdateRequest input) remote)

/-! ## Controller data model (api/v1/githubissue_types.go) -/

/-- `GitHubIssueSpec` — desired state of a GitHubIssue. -/
structure IssueSpec where
  repo : String
  title : String
  body : String
  labels : List String
  tokenSecretRef : String
deriving Repr, DecidableEq

/-- `GitHubIssueStatus` — observed state (the opaque condition list is not
modelled; the controller never touches it). -/
structure IssueStatus where
  issueNumber : Int
  issueURL : String
  state : String
deriving Repr, DecidableEq

/-- A stored `GitHubIssue` object: deletion marker, finalizer list, spec and
status.  `deletionTimestampIsZero` mirrors `issue.DeletionTimestamp.IsZero()`. -/
structure GitHubIssueObj where
  deletionTimestampIsZero : Bool
  finalizers : List String
  spec : IssueSpec
  status : IssueStatus
deriving Repr, DecidableEq

/-- The control-plane store as the controller sees it during one
reconciliation: the requested object (`none` models NotFound) and the
secrets of its namespace, each a name paired with its string-keyed data
map.  Store writes by the fake client used in the tests always succeed. -/
structure Cluster where
  issue : Option GitHubIssueObj
  secrets : List (String × List (String × String))
deriving Repr, DecidableEq

def githubIssueFinalizer : String := "issues.github.example.com/cleanup"

/-- `controllerutil.ContainsFinalizer`. -/
def containsFinalizer (o : GitHubIssueObj) : Bool :=
  o.finalizers.contains githubIssueFinalizer

/-- `controllerutil.AddFinalizer` (called only when absent). -/
def addFinalizer (o : GitHubIssueObj) : GitHubIssueObj :=
  { o with finalizers := o.finalizers ++ [githubIssueFinalizer] }

/-- `controllerutil.RemoveFinalizer`: removes every occurrence. -/
def removeFinalizer (o : GitHubIssueObj) : GitHubIssueObj :=
  { o with finalizers := o.finalizers.filter (· ≠ githubIssueFinalizer) }

/-! ## The Reconcile state machine (internal/controller/githubissue_controller.go)

`Reconcile` is parametrized over the `providers.IssueProvider` interface: a
record of the five remote operations over a provider state `π`, each
returning the new provider state and a fallible result.  The remote calls
performed during the attempt are recorded in a trace.  `ctrl.Result` is
modelled with its `Requeue` flag and `RequeueAfter` in seconds; a non-nil
returned error is modelled as `Option RErr` tagged with its origin. -/

/-- One remote call, with its arguments, as recorded in the trace. -/
inductive RemoteCall where
  | create (token : String) (input : CreateIssueInput)
  | get (token repo : String) (number : Int)
  | update (token repo : String) (number : Int) (input : UpdateIssueInput)
  | close (token repo : String) (number : Int)
  | reopen (token repo : String) (number : Int)
deriving Repr, DecidableEq

def RemoteCall.isCreate : RemoteCall → Bool
  | .create _ _ => true
  | _ => false

def RemoteCall.isUpdate : RemoteCall → Bool
  | .update _ _ _ _ => true
  | _ => false

def RemoteCall.isClose : RemoteCall → Bool
  | .close _ _ _ => true
  | _ => false

def RemoteCall.isReopen : RemoteCall → Bool
  | .reopen _ _ _ => true
  | _ => false

/-- The `providers.IssueProvider` interface over a provider state `π`. -/
structure ProviderOps (π : Type) where
  create : π → String → CreateIssueInput → π × Except Unit Issue
  get : π → String → String → Int → π × Except Unit Issue
  update : π → String → String → Int → UpdateIssueInput → π × Except Unit Issue
  close : π → String → String → Int → π × Except Unit Unit
  reopen : π → String → String → Int → π × Except Unit Unit

/-- The `MockProvider` as an `IssueProvider`. -/
def mockOps : ProviderOps MockState :=
  { create := mockCreate, get := mockGet, update := mockUpdate,
    close := mockClose, reopen := mockReopen }

/-- `ctrl.Result`, restricted to the fields this controller ever sets. -/
structure CtrlResult where
  requeue : Bool := false
  requeueAfterSec : Nat := 0
deriving Repr, DecidableEq

/-- Origin tag of a non-nil error returned by `Reconcile`. -/
inductive RErr where
  | secretGetFailed
  | createFailed
  | getFailed
deriving Repr, DecidableEq

/-- Everything one `Reconcile` invocation produces: the stores after the
attempt, the remote-call trace, the `ctrl.Result` and the returned error. -/
structure ReconcileOutput (π : Type) where
  cluster : Cluster
  provider : π
  trace : List RemoteCall
  result : CtrlResult
  err : Option RErr

variable {π : Type}

/-- End of the sync branch (source lines 479–491): persist `Status.State`
when it differs from the enforced state, then return the periodic 5-minute
requeue with nil error. -/
def reconcileFinish (c : Cluster) (p : π) (issue : GitHubIssueObj) (current : Issue)
    (tr : List RemoteCall) : ReconcileOutput π :=
  if issue.status.state ≠ current.state then
    { cluster := { c with issue := some ({ issue with
        status := { issue.status with state := current.state } }) },
      provider := p, trace := tr, result := { requeueAfterSec := 300 }, err := none }
  else
    { cluster := c, provider := p, trace := tr,
      result := { requeueAfterSec := 300 }, err := none }

/-- The `providers.UpdateIssueInput` the controller sends in the drift
branch: spec title and body, and the spec's label slice. -/
def updateInputOf (spec : IssueSpec) : UpdateIssueInput :=
  { title := spec.title, body := spec.body, labels := some spec.labels }

/-- The `providers.CreateIssueInput` the controller sends in the create
branch: spec repo, title, body and labels. -/
def createInputOf (spec : IssueSpec) : CreateIssueInput :=
  { repo := spec.repo, title := spec.title, body := spec.body, labels := spec.labels }

/-- Drift detection and correction (source lines 462–477): push an update
when title, body or label set differ; an update failure yields a 30-second
fixed-delay requeue with nil error. -/
def reconcileDrift (ops : ProviderOps π) (c : Cluster) (p : π) (issue : GitHubIssueObj)
    (token : String) (current : Issue) (tr : List RemoteCall) : ReconcileOutput π :=
  if current.title ≠ issue.spec.title ∨ current.body ≠ issue.spec.body ∨
      labelsMatch current.labels issue.spec.labels = false then
    match ops.update p token issue.spec.repo issue.status.issueNumber
        (updateInputOf issue.spec) with
    | (p', Except.error _) =>
      { cluster := c, provider := p',
        trace := tr ++ [RemoteCall.update token issue.spec.repo issue.status.issueNumber
          (updateInputOf issue.spec)],
        result := { requeueAfterSec := 30 }, err := none }
    | (p', Except.ok _) =>
      reconcileFinish c p' issue current
        (tr ++ [RemoteCall.update token issue.spec.repo issue.status.issueNumber
          (updateInputOf issue.spec)])
  else reconcileFinish c p issue current tr

/-- Sync branch (source lines 441–487): fetch the remote issue (a failure
propagates), reopen it when externally closed (a reopen failure yields a
30-second fixed-delay requeue with nil error, a success makes the local view
`"open"`), then handle drift. -/
def reconcileSync (ops : ProviderOps π) (c : Cluster) (p : π) (issue : GitHubIssueObj)
    (token : String) : ReconcileOutput π :=
  match ops.get p token issue.spec.repo issue.status.issueNumber with
  | (p1, Except.error _) =>
    { cluster := c, provider := p1,
      trace := [RemoteCall.get token issue.spec.repo issue.status.issueNumber],
      result := {}, err := some RErr.getFailed }
  | (p1, Except.ok current) =>
    if current.state = "closed" then
      match ops.reopen p1 token issue.spec.repo issue.status.issueNumber with
      | (p2, Except.error _) =>
        { cluster := c, provider := p2,
          trace := [RemoteCall.get token issue.spec.repo issue.status.issueNumber,
                    RemoteCall.reopen token issue.spec.repo issue.status.issueNumber],
          result := { requeueAfterSec := 30 }, err := none }
      | (p2, Except.ok _) =>
        reconcileDrift ops c p2 issue token { current with state := "open" }
          [RemoteCall.get token issue.spec.repo issue.status.issueNumber,
           RemoteCall.reopen token issue.spec.repo issue.status.issueNumber]
    else
      reconcileDrift ops c p1 issue token current
        [RemoteCall.get token issue.spec.repo issue.status.issueNumber]

/-- Deletion branch (source lines 377–403): with the finalizer present and a
created remote issue, close it (a failure keeps the finalizer and yields a
30-second fixed-delay requeue with nil error); on success — or when no
remote issue was created — remove the finalizer and persist; without the
finalizer, return immediately. -/
def reconcileDeletion (ops : ProviderOps π) (c : Cluster) (p : π) (issue : GitHubIssueObj)
    (token : String) : ReconcileOutput π :=
  if containsFinalizer issue then
    if 0 < issue.status.issueNumber then
      match ops.close p token issue.spec.repo issue.status.issueNumber with
      | (p', Except.error _) =>
        { cluster := c, provider := p',
          trace := [RemoteCall.close token issue.spec.repo issue.status.issueNumber],
          result := { requeueAfterSec := 30 }, err := none }
      | (p', Except.ok _) =>
        { cluster := { c with issue := some (removeFinalizer issue) }, provider := p',
          trace := [RemoteCall.close token issue.spec.repo issue.status.issueNumber],
          result := {}, err := none }
    else
      { cluster := { c with issue := some (removeFinalizer issue) }, provider := p,
        trace := [], result := {}, err := none }
  else
    { cluster := c, provider := p, trace := [], result := {}, err := none }

/-- Create branch (source lines 418–440): call `Create` with the spec's
repo, title, body and labels (a failure propagates), then write the remote
number, URL and state into the status. -/
def reconcileCreate (ops : ProviderOps π) (c : Cluster) (p : π) (issue : GitHubIssueObj)
    (token : String) : ReconcileOutput π :=
  match ops.create p token (createInputOf issue.spec) with
  | (p', Except.error _) =>
    { cluster := c, provider := p',
      trace := [RemoteCall.create token (createInputOf issue.spec)],
      result := {}, err := some RErr.createFailed }
  | (p', Except.ok created) =>
    { cluster := { c with issue := some ({ issue with
        status := { issueNumber := created.number, issueURL := created.url,
                    state := created.state } }) },
      provider := p', trace := [RemoteCall.create token (createInputOf issue.spec)],
      result := { requeueAfterSec := 300 }, err := none }

/-- `GitHubIssueReconciler.Reconcile`: fetch the object (NotFound is
terminal success), resolve the credential secret (a missing secret
propagates; a secret without the `"token"` key yields a 30-second requeue
with nil error), then the deletion branch, the finalizer-add branch (an
immediate requeue after persisting the finalizer), the create branch, or
the sync branch. -/
def Reconcile (ops : ProviderOps π) (c : Cluster) (p : π) : ReconcileOutput π :=
  match c.issue with
  | none => { cluster := c, provider := p, trace := [], result := {}, err := none }
  | some issue =>
    match c.secrets.lookup issue.spec.tokenSecretRef with
    | none =>
      { cluster := c, provider := p, trace := [], result := {}, err := some RErr.secretGetFailed }
    | some data =>
      match data.lookup "token" with
      | none =>
        { cluster := c, provider := p, trace := [],
          result := { requeueAfterSec := 30 }, err := none }
      | some token =>
        if issue.deletionTimestampIsZero = false then
          reconcileDeletion ops c p issue token
        else if containsFinalizer issue = false then
          { cluster := { c with issue := some (addFinalizer issue) }, provider := p,
            trace := [], result := { requeue := true }, err := none }
        else if issue.status.issueNumber = 0 then
          reconcileCreate ops c p issue token
        else
          reconcileSync ops c p issue token

/-! ## Control loop driver (main.go, worker loop at lines 78–97)

The loop body dequeues a key, invokes `reconcile`, and performs queue
bookkeeping depending on its outcome.  In Go, `reconcile` returning a nil
error leads to `Forget` then `Done`; a non-nil error leads to
`AddRateLimited` then `Done`.  The body contains no `defer`: if `reconcile`
panicked, control would unwind out of `main` and none of the statements
after the call — in particular `queue.Done(key)` — would execute.  The
outcome of the `reconcile` call is therefore modelled with three cases, and
the loop body as the list of queue operations it performs after the call. -/

/-- Outcome of the `reconcile(clientset, lister, key)` call. -/
inductive ReconcileOutcome where
  | ok
  | fail
  | panicked
deriving Repr, DecidableEq

/-- Queue operations the worker loop can perform on the workqueue. -/
inductive QOp where
  | forget
  | addRateLimited
  | done
deriving Repr, DecidableEq

/-- The queue operations performed by one iteration of the worker loop
after the `reconcile` call returns (or panics). -/
def processNextItem : ReconcileOutcome → List QOp
  | ReconcileOutcome.ok => [QOp.forget, QOp.done]
  | ReconcileOutcome.fail => [QOp.addRateLimited, QOp.done]
  | ReconcileOutcome.panicked => []

/-! ## Namespace reconcile (main.go, lines 100–128) -/

/-- A `corev1.Namespace` restricted to the fields `reconcile` reads or
patches: its name and its label map (an association list). -/
structure NamespaceObj where
  name : String
  labels : List (String × String)
deriving Repr, DecidableEq

/-- The names skipped by the `switch ns.Name` statement. -/
def systemNamespaces : List String :=
  ["kube-system", "kube-public", "kube-node-lease", "default"]

/-- Write `v` under key `k` in a label map, preserving all other keys. -/
def setLabel (ls : List (String × String)) (k v : String) : List (String × String) :=
  match ls with
  | [] => [(k, v)]
  | (k', v') :: rest => if k' = k then (k, v) :: rest else (k', v') :: setLabel rest k v

/-- Effect on one namespace of the server-side JSON merge patch
`metadata.labels.team = unassigned` that `reconcile` submits: the `team`
label is set and every other label and field is preserved (RFC 7386 merge
semantics of the API server, external to this repository). -/
def applyTeamPatch (ns : NamespaceObj) : NamespaceObj :=
  { ns with labels := setLabel ns.labels "team" "unassigned" }

/-- `reconcile` (main.go): look the namespace up by key (a missing
namespace is an error, requeued by the caller), skip system namespaces,
skip namespaces already carrying a `team` label, and otherwise patch the
namespace to add `team=unassigned`.  The store is the cluster's namespace
list; the patch is applied to the namespace with the given name. -/
def reconcile (store : List NamespaceObj) (key : String) :
    Except Unit (List NamespaceObj) :=
  match store.find? (fun ns => ns.name == key) with
  | none => Except.error ()
  | some ns =>
    if ns.name ∈ systemNamespaces then Except.ok store
    else if (ns.labels.lookup "team").isSome then Except.ok store
    else Except.ok (store.map (fun n => if n.name == ns.name then applyTeamPatch n else n))

/-! ## Helper lemmas -/

theorem mapSet_lookup_self (l : List ((String × Int) × Issue)) (k : String × Int) (v : Issue) :
    (mapSet l k v).lookup k = some v := by
  induction l with
  | nil => simp [mapSet, List.lookup]
  | cons kv rest ih =>
    obtain ⟨k', v'⟩ := kv
    by_cases hk : k' = k
    · simp [mapSet, hk, List.lookup]
    · have hne : (k == k') = false := beq_eq_false_iff_ne.mpr (fun h => hk h.symm)
      simp [mapSet, hk, List.lookup, hne, ih]

theorem mapSet_length_of_lookup {l : List ((String × Int) × Issue)} {k : String × Int}
    {w : Issue} (h : l.lookup k = some w) (v : Issue) :
    (mapSet l k v).length = l.length := by
  induction l with
  | nil => simp [List.lookup] at h
  | cons kv rest ih =>
    obtain ⟨k', v'⟩ := kv
    by_cases hk : k' = k
    · simp [mapSet, hk]
    · have hne : (k == k') = false := beq_eq_false_iff_ne.mpr (fun hh => hk hh.symm)
      have h' : rest.lookup k = some w := by simpa [List.lookup, hne] using h
      simp [mapSet, hk, ih h']

theorem setLabel_lookup_self (ls : List (String × String)) (k v : String) :
    (setLabel ls k v).lookup k = some v := by
  induction ls with
  | nil => simp [setLabel, List.lookup]
  | cons kv rest ih =>
    obtain ⟨k', v'⟩ := kv
    by_cases hk : k' = k
    · simp [setLabel, hk, List.lookup]
    · have hne : (k == k') = false := beq_eq_false_iff_ne.mpr (fun h => hk h.symm)
      simp [setLabel, hk, List.lookup, hne, ih]

theorem setLabel_lookup_ne (ls : List (String × String)) (k v k' : String)
    (h : k' ≠ k) : (setLabel ls k v).lookup k' = ls.lookup k' := by
  induction ls with
  | nil => simp [setLabel, List.lookup, beq_eq_false_iff_ne.mpr h]
  | cons kv rest ih =>
    obtain ⟨a, b⟩ := kv
    by_cases ha : a = k
    · subst ha
      simp [setLabel, List.lookup, beq_eq_false_iff_ne.mpr h]
    · by_cases ha' : k' = a
      · subst ha'
        simp [setLabel, ha, List.lookup]
      · simp [setLabel, ha, List.lookup, beq_eq_false_iff_ne.mpr ha', ih]

/-! ## Claim C4 — labelsMatch and set equality -/

/-- **C4** counterexample: the two lists `["a","a","b"]` and `["a","b","b"]`
denote equal sets of labels (each is contained in the other), yet
`labelsMatch` returns `false` on them — so `labelsMatch` is not
set-equality as the claim states. -/
theorem labelsMatch_not_set_equality :
    labelsMatch ["a", "a", "b"] ["a", "b", "b"] = false ∧
    (∀ x ∈ (["a", "a", "b"] : List String), x ∈ (["a", "b", "b"] : List String)) ∧
    (∀ x ∈ (["a", "b", "b"] : List String), x ∈ (["a", "a", "b"] : List String)) :=
  ⟨by decide, by decide, by decide⟩

/-- **C4** (amended): for every pair of label lists `a` and `b`, the drift
check's label comparison `labelsMatch` returns true if and only if `a` and
`b` are permutations of each other (equal as multisets) — in particular it
is symmetric and invariant under reordering of either argument — but lists
with duplicated elements are compared by multiplicity, not by bare set
membership. -/
theorem labelsMatch_permutation_equality (a b : List String) :
    (labelsMatch a b = true ↔ a.Perm b) ∧ labelsMatch a b = labelsMatch b a := by
  refine ⟨labelsMatch_iff_perm a b, ?_⟩
  by_cases h : a.Perm b
  · rw [(labelsMatch_iff_perm a b).mpr h, (labelsMatch_iff_perm b a).mpr h.symm]
  · have h1 : labelsMatch a b = false :=
      Bool.not_eq_true _ ▸ (fun hh => h ((labelsMatch_iff_perm a b).mp hh))
    have h2 : labelsMatch b a = false :=
      Bool.not_eq_true _ ▸ (fun hh => h ((labelsMatch_iff_perm b a).mp hh).symm)
    rw [h1, h2]

/-! ## Claim C5 — queue bookkeeping in the worker loop -/

/-- **C5** counterexample: when the reconcile call panics, the loop body
performs no `Done` — the worker loop of `main` has no deferred cleanup, so
the claim that `Done(key)` is invoked in every case fails in the panic
case. -/
theorem done_skipped_on_panic :
    QOp.done ∉ processNextItem ReconcileOutcome.panicked := by decide

/-- **C5** (amended): in the control loop driver's main loop, for every
dequeued key `Done(key)` is invoked after `Forget(key)` on success and
after `AddRateLimited(key)` on failure; there is however no
deferred/guaranteed cleanup, so when the reconcile function panics no queue
bookkeeping (in particular no `Done`) is performed. -/
theorem loop_queue_bookkeeping :
    processNextItem ReconcileOutcome.ok = [QOp.forget, QOp.done] ∧
    processNextItem ReconcileOutcome.fail = [QOp.addRateLimited, QOp.done] ∧
    processNextItem ReconcileOutcome.panicked = [] :=
  ⟨rfl, rfl, rfl⟩

/-! ## Claim C9 — mock call counters and the stats snapshot -/

/-- A mock state holding one issue, created through the mock itself. -/
def exMock1 : MockState :=
  (mockCreate NewMockProvider "fake-token"
    { repo := "owner/repo", title := "Test Issue",
      body := "This is a test issue", labels := ["bug"] }).1

/-- **C9** counterexample: after one `Reopen` call the counters snapshot of
the mock's inspection endpoint is completely unchanged and contains no
reopen entry — the fake tracks call counts for only four of the five
operations, so the snapshot does not reflect `n` reopen calls. -/
theorem reopen_not_reflected_in_stats :
    statsSnapshot (mockReopen exMock1 "fake-token" "owner/repo" 1).1 = statsSnapshot exMock1 ∧
    (statsSnapshot (mockReopen exMock1 "fake-token" "owner/repo" 1).1).lookup "reopenCalled"
      = none :=
  ⟨by decide, by decide⟩

/-- **C9** (amended): the in-memory fake tracks a call count for four of
the five remote operations (create, get, update, close — each call
increments its counter), and the inspection endpoint's counters snapshot
reports exactly those four counters (plus the stored-issue total); `Reopen`
increments no counter, so after any number of `Reopen` calls the snapshot
is unchanged and carries no reopen entry. -/
theorem mock_counters_tracked (m : MockState) (token repo : String) (n : Int)
    (ci : CreateIssueInput) (ui : UpdateIssueInput) :
    (mockCreate m token ci).1.createCalled = m.createCalled + 1 ∧
    (mockGet m token repo n).1.getCalled = m.getCalled + 1 ∧
    (mockUpdate m token repo n ui).1.updateCalled = m.updateCalled + 1 ∧
    (mockClose m token repo n).1.closeCalled = m.closeCalled + 1 ∧
    (statsSnapshot m).lookup "createCalled" = some m.createCalled ∧
    (statsSnapshot m).lookup "getCalled" = some m.getCalled ∧
    (statsSnapshot m).lookup "updateCalled" = some m.updateCalled ∧
    (statsSnapshot m).lookup "closeCalled" = some m.closeCalled ∧
    (statsSnapshot m).lookup "reopenCalled" = none ∧
    statsSnapshot (mockReopen m token repo n).1 = statsSnapshot m := by
  refine ⟨rfl, ?_, ?_, ?_, ?_, ?_, ?_, ?_, ?_, ?_⟩
  · unfold mockGet
    cases hm : m.issues.lookup (repo, n) <;> simp [hm]
  · unfold mockUpdate
    cases hm : m.issues.lookup (repo, n) <;> simp [hm]
  · unfold mockClose
    cases hm : m.issues.lookup (repo, n) <;> simp [hm]
  · simp [statsSnapshot, List.lookup]
  · simp [statsSnapshot, List.lookup]
  · simp [statsSnapshot, List.lookup]
  · simp [statsSnapshot, List.lookup]
  · simp [statsSnapshot, List.lookup]
  · unfold mockReopen
    cases hm : m.issues.lookup (repo, n) with
    | none => simp [hm]
    | some issue =>
      simp [hm, statsSnapshot, mapSet_length_of_lookup hm]

/-! ## Claim C6 — Update field semantics (live adapter and fake) -/

/-- **C6**: for every `Update` call on the external resource client — the
in-memory fake acting on its stored issue, and the live GitHub adapter's
request as applied by the remote edit operation — an empty title or body
field leaves the resource's title/body unchanged, a nil (absent) label list
leaves the labels unchanged, and an explicitly empty label list clears all
labels. -/
theorem update_empty_field_semantics
    (m : MockState) (token repo : String) (n : Int) (input : UpdateIssueInput)
    (issue : Issue) (h : m.issues.lookup (repo, n) = some issue) :
    (∃ updated : Issue,
      (mockUpdate m token repo n input).2 = Except.ok updated ∧
      (mockUpdate m token repo n input).1.issues.lookup (repo, n) = some updated ∧
      (input.title = "" → updated.title = issue.title) ∧
      (input.body = "" → updated.body = issue.body) ∧
      (input.labels = none → updated.labels = issue.labels) ∧
      (input.labels = some [] → updated.labels = [])) ∧
    (∀ (remote : Issue) (repoStr : String) (ownerRepo : String × String),
      parseRepo repoStr = Except.ok ownerRepo →
      ∃ applied : Issue,
        ghUpdate remote repoStr input = Except.ok applied ∧
        (input.title = "" → applied.title = remote.title) ∧
        (input.body = "" → applied.body = remote.body) ∧
        (input.labels = none → applied.labels = remote.labels) ∧
        (input.labels = some [] → applied.labels = [])) := by
  constructor
  · refine ⟨{ issue with
        title := if input.title ≠ "" then input.title else issue.title
        body := if input.body ≠ "" then input.body else issue.body
        labels := match input.labels with
          | none => issue.labels
          | some ls => ls }, ?_, ?_, ?_, ?_, ?_, ?_⟩
    · simp [mockUpdate, h]
    · simp [mockUpdate, h, mapSet_lookup_self]
    · intro ht; simp [ht]
    · intro hb; simp [hb]
    · intro hl; simp [hl]
    · intro hl; simp [hl]
  · intro remote repoStr ownerRepo hparse
    refine ⟨remoteApplyEdit (ghUpdateRequest input) remote, ?_, ?_, ?_, ?_, ?_⟩
    · simp [ghUpdate, hparse]
    · intro ht; simp [remoteApplyEdit, ghUpdateRequest, ht]
    · intro hb; simp [remoteApplyEdit, ghUpdateRequest, hb]
    · intro hl; simp [remoteApplyEdit, ghUpdateRequest, hl]
    · intro hl; simp [remoteApplyEdit, ghUpdateRequest, hl]

/-- The issue stored in `exMock1`. -/
def exIssue1 : Issue :=
  { number := 1, url := "https://github.com/owner/repo/issues/1", state := "open",
    title := "Test Issue", body := "This is a test issue", labels := ["bug"] }

/-- Witness for **C6**: on the concrete mock state holding one issue, an
update with empty title/body and an explicitly empty label list succeeds
and clears the labels. -/
theorem update_empty_field_semantics_witness :
    exMock1.issues.lookup ("owner/repo", 1) = some exIssue1 ∧
    (∃ updated : Issue,
      (mockUpdate exMock1 "fake-token" "owner/repo" 1
        { title := "", body := "", labels := some [] }).2 = Except.ok updated ∧
      updated.labels = []) := by
  have h : exMock1.issues.lookup ("owner/repo", 1) = some exIssue1 := by decide
  obtain ⟨⟨updated, h1, _, _, _, _, h6⟩, _⟩ :=
    update_empty_field_semantics exMock1 "fake-token" "owner/repo" 1
      { title := "", body := "", labels := some [] } exIssue1 h
  exact ⟨h, updated, h1, h6 rfl⟩

/-! ## Claim C10 — namespace reconcile frame conditions -/

/-- **C10**: the namespace reconcile function leaves the store unchanged
for every system namespace (kube-system, kube-public, kube-node-lease,
default) and for every namespace already carrying a `team` label; when it
does patch, it adds only the single label `team=unassigned` via a merge
patch, preserving every pre-existing label and the namespace's other
fields. -/
theorem namespace_reconcile_frame (store : List NamespaceObj) (key : String)
    (ns : NamespaceObj) (hfind : store.find? (fun n => n.name == key) = some ns) :
    (ns.name ∈ systemNamespaces → reconcile store key = Except.ok store) ∧
    ((ns.labels.lookup "team").isSome → reconcile store key = Except.ok store) ∧
    (ns.name ∉ systemNamespaces → ns.labels.lookup "team" = none →
      reconcile store key =
        Except.ok (store.map (fun n => if n.name == ns.name then applyTeamPatch n else n)) ∧
      (applyTeamPatch ns).name = ns.name ∧
      (applyTeamPatch ns).labels.lookup "team" = some "unassigned" ∧
      (∀ k, k ≠ "team" → (applyTeamPatch ns).labels.lookup k = ns.labels.lookup k)) := by
  refine ⟨?_, ?_, ?_⟩
  · intro hs
    simp [reconcile, hfind, hs]
  · intro hteam
    by_cases hs : ns.name ∈ systemNamespaces <;> simp [reconcile, hfind, hs, hteam]
  · intro hs hteam
    refine ⟨?_, rfl, setLabel_lookup_self ns.labels "team" "unassigned", ?_⟩
    · simp [reconcile, hfind, hs, hteam]
    · intro k hk
      exact setLabel_lookup_ne ns.labels "team" "unassigned" k hk

/-- Concrete fixture for **C10**: one plain namespace with an unrelated
pre-existing label. -/
def exStore : List NamespaceObj :=
  [{ name := "test-ns", labels := [("env", "production")] }]

/-- The namespace stored in `exStore`. -/
def exNs : NamespaceObj := { name := "test-ns", labels := [("env", "production")] }

/-- Witness for **C10**: reconciling `test-ns` patches it, sets
`team=unassigned` and preserves `env=production`. -/
theorem namespace_reconcile_frame_witness :
    exStore.find? (fun n => n.name == "test-ns") = some exNs ∧
    reconcile exStore "test-ns" =
      Except.ok (exStore.map (fun n => if n.name == exNs.name then applyTeamPatch n else n)) ∧
    (applyTeamPatch exNs).labels.lookup "team" = some "unassigned" ∧
    (applyTeamPatch exNs).labels.lookup "env" = some "production" := by
  have hfind : exStore.find? (fun n => n.name == "test-ns") = some exNs := by decide
  have h := namespace_reconcile_frame exStore "test-ns" exNs hfind
  have h3 := h.2.2 (by decide) (by decide)
  exact ⟨hfind, h3.1, h3.2.2.1, h3.2.2.2 "env" (by decide)⟩

/-! ## Concrete fixtures mirroring the controller test suite -/

/-- The data map of the `github-token` secret used by the tests. -/
def exSecretData : List (String × String) := [("token", "fake-token")]

/-- The spec of the `test-issue` object created by the tests. -/
def exSpec0 : IssueSpec :=
  { repo := "owner/repo", title := "Test Issue", body := "This is a test issue",
    labels := ["bug"], tokenSecretRef := "github-token" }

/-- A newly created GitHubIssue object: no finalizer, zero status. -/
def exObjNew : GitHubIssueObj :=
  { deletionTimestampIsZero := true, finalizers := [], spec := exSpec0,
    status := { issueNumber := 0, issueURL := "", state := "" } }

/-- A cluster holding the new object and the credential secret. -/
def exClusterNew : Cluster :=
  { issue := some exObjNew, secrets := [("github-token", exSecretData)] }

/-- A cluster where the referenced secret does not exist. -/
def cMissingSecret : Cluster := { issue := some exObjNew, secrets := [] }

/-- A cluster where the secret exists but has no `"token"` key. -/
def cNoTokenKey : Cluster :=
  { issue := some exObjNew, secrets := [("github-token", [("other", "x")])] }

/-! ## Claim C1 — missing credential handling -/

/-- **C1** counterexample: on a concrete object whose credential secret
exists but lacks the `"token"` key, `Reconcile` returns a **nil** error
together with a 30-second requeue — not the propagated (non-nil) error the
claim states for that case.  (No remote call is made, as the claim also
says.) -/
theorem token_key_missing_nil_error :
    (Reconcile mockOps cNoTokenKey NewMockProvider).err = none ∧
    (Reconcile mockOps cNoTokenKey NewMockProvider).result =
      { requeue := false, requeueAfterSec := 30 } ∧
    (Reconcile mockOps cNoTokenKey NewMockProvider).trace = [] :=
  ⟨rfl, rfl, rfl⟩

/-- **C1** (amended): for every reconciliation attempt of a GitHubIssue
whose referenced credential secret is missing, `Reconcile` returns a
propagated (non-nil) error; when the secret exists but lacks the `"token"`
key, `Reconcile` instead returns a nil error with a 30-second requeue; in
both cases no remote call — in particular no `Create` — is made. -/
theorem missing_credential_no_create (ops : ProviderOps π) (c : Cluster) (p : π)
    (o : GitHubIssueObj) (hc : c.issue = some o) :
    (c.secrets.lookup o.spec.tokenSecretRef = none →
      (Reconcile ops c p).err = some RErr.secretGetFailed ∧
      (Reconcile ops c p).trace = []) ∧
    (∀ data, c.secrets.lookup o.spec.tokenSecretRef = some data →
      data.lookup "token" = none →
      (Reconcile ops c p).err = none ∧
      (Reconcile ops c p).result = { requeue := false, requeueAfterSec := 30 } ∧
      (Reconcile ops c p).trace = []) := by
  constructor
  · intro hs
    simp [Reconcile, hc, hs]
  · intro data hs ht
    simp [Reconcile, hc, hs, ht]

/-- Witness for **C1**: the concrete missing-secret cluster yields the
propagated error and an empty remote trace. -/
theorem missing_credential_no_create_witness :
    cMissingSecret.issue = some exObjNew ∧
    cMissingSecret.secrets.lookup exObjNew.spec.tokenSecretRef = none ∧
    (Reconcile mockOps cMissingSecret NewMockProvider).err = some RErr.secretGetFailed ∧
    (Reconcile mockOps cMissingSecret NewMockProvider).trace = [] := by
  have h := (missing_credential_no_create mockOps cMissingSecret NewMockProvider
    exObjNew rfl).1 (by decide)
  exact ⟨rfl, by decide, h.1, h.2⟩

/-! ## Claim C2 — finalizer precedes remote creation -/

/-- The create branch always records exactly one `Create` call, whatever
the provider answers. -/
theorem reconcileCreate_one_create (ops : ProviderOps π) (c : Cluster) (p : π)
    (issue : GitHubIssueObj) (token : String) :
    ((reconcileCreate ops c p issue token).trace.filter RemoteCall.isCreate).length = 1 := by
  unfold reconcileCreate
  rcases h : ops.create p token (createInputOf issue.spec) with ⟨p', r⟩
  cases r <;> simp [h, RemoteCall.isCreate]

/-- **C2**: for every newly created GitHubIssue object (no finalizer,
`Status.IssueNumber == 0`, not being deleted) whose credential resolves,
the first `Reconcile` invocation adds the finalizer, returns an
immediate-requeue result with no error and makes no remote call, and the
second `Reconcile` invocation (on the persisted object) calls `Create`
exactly once. -/
theorem finalizer_before_create (ops : ProviderOps π) (c : Cluster) (p : π)
    (o : GitHubIssueObj) (data : List (String × String)) (token : String)
    (hc : c.issue = some o)
    (hs : c.secrets.lookup o.spec.tokenSecretRef = some data)
    (ht : data.lookup "token" = some token)
    (hdel : o.deletionTimestampIsZero = true)
    (hfin : containsFinalizer o = false)
    (hnum : o.status.issueNumber = 0) :
    Reconcile ops c p =
      { cluster := { c with issue := some (addFinalizer o) }, provider := p,
        trace := [], result := { requeue := true }, err := none } ∧
    ((Reconcile ops { c with issue := some (addFinalizer o) } p).trace.filter
        RemoteCall.isCreate).length = 1 := by
  constructor
  · simp [Reconcile, hc, hs, ht, hdel, hfin]
  · have hfin2 : containsFinalizer (addFinalizer o) = true := by
      simp [containsFinalizer, addFinalizer]
    have hc2 : ({ c with issue := some (addFinalizer o) } : Cluster).issue
        = some (addFinalizer o) := rfl
    have hs2 : ({ c with issue := some (addFinalizer o) } : Cluster).secrets.lookup
        (addFinalizer o).spec.tokenSecretRef = some data := hs
    have hdel2 : (addFinalizer o).deletionTimestampIsZero = true := hdel
    have hnum2 : (addFinalizer o).status.issueNumber = 0 := hnum
    simp only [Reconcile, hc2, hs2, ht, hdel2, hfin2, hnum2]
    simp only [if_true, if_false, ite_true, ite_false, Bool.true_eq_false,
      not_false_eq_true, reduceIte]
    exact reconcileCreate_one_create ops _ p (addFinalizer o) token

/-- Witness for **C2**: the two-step run on the concrete new object and the
fresh mock. -/
theorem finalizer_before_create_witness :
    exClusterNew.issue = some exObjNew ∧
    exClusterNew.secrets.lookup exObjNew.spec.tokenSecretRef = some exSecretData ∧
    exSecretData.lookup "token" = some "fake-token" ∧
    exObjNew.deletionTimestampIsZero = true ∧
    containsFinalizer exObjNew = false ∧
    exObjNew.status.issueNumber = 0 ∧
    Reconcile mockOps exClusterNew NewMockProvider =
      { cluster := { exClusterNew with issue := some (addFinalizer exObjNew) },
        provider := NewMockProvider, trace := [],
        result := { requeue := true }, err := none } ∧
    ((Reconcile mockOps { exClusterNew with issue := some (addFinalizer exObjNew) }
        NewMockProvider).trace.filter RemoteCall.isCreate).length = 1 := by
  have h := finalizer_before_create mockOps exClusterNew NewMockProvider exObjNew
    exSecretData "fake-token" rfl (by decide) (by decide) rfl rfl rfl
  exact ⟨rfl, by decide, by decide, rfl, rfl, rfl, h.1, h.2⟩

/-! ## Claim C3 — deletion cleanup via the finalizer -/

/-- **C3**: for every GitHubIssue being deleted (credential resolvable):
without the finalizer, `Reconcile` makes no remote call and returns
terminal success; with the finalizer and `Status.IssueNumber ≤ 0`, the
finalizer is removed and persisted with no remote call; with the finalizer
and `Status.IssueNumber > 0`, exactly one `Close` call is recorded — if it
fails the finalizer is kept and the result is a 30-second fixed-delay
requeue with nil error, and if it succeeds the finalizer is removed and
persisted with terminal success. -/
theorem deletion_close_finalizer (ops : ProviderOps π) (c : Cluster) (p : π)
    (o : GitHubIssueObj) (data : List (String × String)) (token : String)
    (hc : c.issue = some o)
    (hs : c.secrets.lookup o.spec.tokenSecretRef = some data)
    (ht : data.lookup "token" = some token)
    (hdel : o.deletionTimestampIsZero = false) :
    (containsFinalizer o = false →
      Reconcile ops c p =
        { cluster := c, provider := p, trace := [], result := {}, err := none }) ∧
    (containsFinalizer o = true → ¬ 0 < o.status.issueNumber →
      Reconcile ops c p =
        { cluster := { c with issue := some (removeFinalizer o) }, provider := p,
          trace := [], result := {}, err := none }) ∧
    (containsFinalizer o = true → 0 < o.status.issueNumber →
      ((Reconcile ops c p).trace.filter RemoteCall.isClose).length = 1 ∧
      (∀ p' e, ops.close p token o.spec.repo o.status.issueNumber = (p', Except.error e) →
        Reconcile ops c p =
          { cluster := c, provider := p',
            trace := [RemoteCall.close token o.spec.repo o.status.issueNumber],
            result := { requeueAfterSec := 30 }, err := none }) ∧
      (∀ p' u, ops.close p token o.spec.repo o.status.issueNumber = (p', Except.ok u) →
        Reconcile ops c p =
          { cluster := { c with issue := some (removeFinalizer o) }, provider := p',
            trace := [RemoteCall.close token o.spec.repo o.status.issueNumber],
            result := {}, err := none })) := by
  refine ⟨?_, ?_, ?_⟩
  · intro hfin
    simp [Reconcile, reconcileDeletion, hc, hs, ht, hdel, hfin]
  · intro hfin hnum
    simp [Reconcile, reconcileDeletion, hc, hs, ht, hdel, hfin, hnum]
  · intro hfin hnum
    refine ⟨?_, ?_, ?_⟩
    · rcases hcl : ops.close p token o.spec.repo o.status.issueNumber with ⟨p', r⟩
      cases r <;>
        simp [Reconcile, reconcileDeletion, hc, hs, ht, hdel, hfin, hnum, hcl,
          RemoteCall.isClose]
    · intro p' e hcl
      simp [Reconcile, reconcileDeletion, hc, hs, ht, hdel, hfin, hnum, hcl]
    · intro p' u hcl
      simp [Reconcile, reconcileDeletion, hc, hs, ht, hdel, hfin, hnum, hcl]

/-- A deleted object with the finalizer and a created remote issue. -/
def exObjDeleting : GitHubIssueObj :=
  { deletionTimestampIsZero := false, finalizers := [githubIssueFinalizer],
    spec := exSpec0,
    status := { issueNumber := 1, issueURL := "https://github.com/owner/repo/issues/1",
                state := "open" } }

/-- A cluster holding the deleted object and the credential secret. -/
def exClusterDeleting : Cluster :=
  { issue := some exObjDeleting, secrets := [("github-token", exSecretData)] }

/-- Witness for **C3**: deleting the concrete object against the mock
holding its remote issue records exactly one `Close`, removes the
finalizer, and returns terminal success. -/
theorem deletion_close_finalizer_witness :
    exClusterDeleting.issue = some exObjDeleting ∧
    containsFinalizer exObjDeleting = true ∧
    (0 : Int) < exObjDeleting.status.issueNumber ∧
    ((Reconcile mockOps exClusterDeleting exMock1).trace.filter RemoteCall.isClose).length
      = 1 ∧
    Reconcile mockOps exClusterDeleting exMock1 =
      { cluster := { exClusterDeleting with issue := some (removeFinalizer exObjDeleting) },
        provider := (mockClose exMock1 "fake-token" "owner/repo" 1).1,
        trace := [RemoteCall.close "fake-token" "owner/repo" 1],
        result := {}, err := none } := by
  have h := deletion_close_finalizer mockOps exClusterDeleting exMock1 exObjDeleting
    exSecretData "fake-token" rfl (by decide) (by decide) rfl
  have h3 := h.2.2 rfl (by decide)
  refine ⟨rfl, rfl, by decide, h3.1, ?_⟩
  exact h3.2.2 (mockClose exMock1 "fake-token" "owner/repo" 1).1 () (by rfl)

/-! ## Claim C8 — idempotent sync -/

/-- **C8**: for every GitHubIssue already in sync with its remote resource
(the fetched remote issue is open and its title, body and label set match
the spec), a `Reconcile` invocation performs only the `Get` call — zero
`Update` and zero `Reopen` calls — and returns the periodic 5-minute
requeue with nil error. -/
theorem in_sync_no_remote_writes (ops : ProviderOps π) (c : Cluster) (p p1 : π)
    (o : GitHubIssueObj) (data : List (String × String)) (token : String)
    (current : Issue)
    (hc : c.issue = some o)
    (hs : c.secrets.lookup o.spec.tokenSecretRef = some data)
    (ht : data.lookup "token" = some token)
    (hdel : o.deletionTimestampIsZero = true)
    (hfin : containsFinalizer o = true)
    (hnum : o.status.issueNumber ≠ 0)
    (hget : ops.get p token o.spec.repo o.status.issueNumber = (p1, Except.ok current))
    (hstate : current.state = "open")
    (htitle : current.title = o.spec.title)
    (hbody : current.body = o.spec.body)
    (hlabels : labelsMatch current.labels o.spec.labels = true) :
    (Reconcile ops c p).trace = [RemoteCall.get token o.spec.repo o.status.issueNumber] ∧
    ((Reconcile ops c p).trace.filter RemoteCall.isUpdate).length = 0 ∧
    ((Reconcile ops c p).trace.filter RemoteCall.isReopen).length = 0 ∧
    (Reconcile ops c p).result = { requeue := false, requeueAfterSec := 300 } ∧
    (Reconcile ops c p).err = none := by
  have hr : Reconcile ops c p = reconcileSync ops c p o token := by
    simp [Reconcile, hc, hs, ht, hdel, hfin, hnum]
  have hdrift : reconcileSync ops c p o token =
      reconcileFinish c p1 o current
        [RemoteCall.get token o.spec.repo o.status.issueNumber] := by
    unfold reconcileSync reconcileDrift
    simp [hget, hstate, htitle, hbody, hlabels]
  rw [hr, hdrift]
  by_cases hss : o.status.state ≠ current.state <;>
    simp [reconcileFinish, hss, RemoteCall.isUpdate, RemoteCall.isReopen]

/-- An object in sync with the remote issue stored in `exMock1`. -/
def exObjSynced : GitHubIssueObj :=
  { deletionTimestampIsZero := true, finalizers := [githubIssueFinalizer],
    spec := exSpec0,
    status := { issueNumber := 1, issueURL := "https://github.com/owner/repo/issues/1",
                state := "open" } }

/-- A cluster holding the synced object and the credential secret. -/
def exClusterSynced : Cluster :=
  { issue := some exObjSynced, secrets := [("github-token", exSecretData)] }

/-- Witness for **C8**: reconciling the concrete in-sync object against the
mock records only the `Get` call and yields the 5-minute requeue. -/
theorem in_sync_no_remote_writes_witness :
    exClusterSynced.issue = some exObjSynced ∧
    mockOps.get exMock1 "fake-token" exObjSynced.spec.repo
        exObjSynced.status.issueNumber
      = ((mockGet exMock1 "fake-token" "owner/repo" 1).1, Except.ok exIssue1) ∧
    (Reconcile mockOps exClusterSynced exMock1).trace = [RemoteCall.get "fake-token" "owner/repo" 1] ∧
    ((Reconcile mockOps exClusterSynced exMock1).trace.filter RemoteCall.isUpdate).length = 0 ∧
    ((Reconcile mockOps exClusterSynced exMock1).trace.filter RemoteCall.isReopen).length = 0 ∧
    (Reconcile mockOps exClusterSynced exMock1).result =
      { requeue := false, requeueAfterSec := 300 } ∧
    (Reconcile mockOps exClusterSynced exMock1).err = none := by
  have h := in_sync_no_remote_writes mockOps exClusterSynced exMock1
    (mockGet exMock1 "fake-token" "owner/repo" 1).1 exObjSynced exSecretData
    "fake-token" exIssue1 rfl (by decide) (by decide) rfl rfl (by decide)
    (by rfl) rfl rfl rfl (by decide)
  exact ⟨rfl, by rfl, h.1, h.2.1, h.2.2.1, h.2.2.2.1, h.2.2.2.2⟩

/-! ## Claim C7 — the remote identifier never reverts to zero -/

theorem reconcileFinish_number (c : Cluster) (p : π) (issue : GitHubIssueObj)
    (current : Issue) (tr : List RemoteCall) (hc : c.issue = some issue) :
    ∀ o', (reconcileFinish c p issue current tr).cluster.issue = some o' →
      o'.status.issueNumber = issue.status.issueNumber := by
  intro o' h
  unfold reconcileFinish at h
  split at h <;> simp only [Option.some.injEq] at h
  · subst h
    rfl
  · rw [hc, Option.some.injEq] at h
    subst h
    rfl

theorem reconcileDrift_number (ops : ProviderOps π) (c : Cluster) (p : π)
    (issue : GitHubIssueObj) (token : String) (current : Issue)
    (tr : List RemoteCall) (hc : c.issue = some issue) :
    ∀ o', (reconcileDrift ops c p issue token current tr).cluster.issue = some o' →
      o'.status.issueNumber = issue.status.issueNumber := by
  intro o' h
  unfold reconcileDrift at h
  split at h
  · split at h
    · simp only at h
      rw [hc, Option.some.injEq] at h
      subst h
      rfl
    · exact reconcileFinish_number c _ issue current _ hc o' h
  · exact reconcileFinish_number c p issue current tr hc o' h

theorem reconcileSync_number (ops : ProviderOps π) (c : Cluster) (p : π)
    (issue : GitHubIssueObj) (token : String) (hc : c.issue = some issue) :
    ∀ o', (reconcileSync ops c p issue token).cluster.issue = some o' →
      o'.status.issueNumber = issue.status.issueNumber := by
  intro o' h
  unfold reconcileSync at h
  split at h
  · simp only at h
    rw [hc, Option.some.injEq] at h
    subst h
    rfl
  · split at h
    · split at h
      · simp only at h
        rw [hc, Option.some.injEq] at h
        subst h
        rfl
      · exact reconcileDrift_number ops c _ issue token _ _ hc o' h
    · exact reconcileDrift_number ops c _ issue token _ _ hc o' h

theorem reconcileDeletion_number (ops : ProviderOps π) (c : Cluster) (p : π)
    (issue : GitHubIssueObj) (token : String) (hc : c.issue = some issue) :
    ∀ o', (reconcileDeletion ops c p issue token).cluster.issue = some o' →
      o'.status.issueNumber = issue.status.issueNumber := by
  intro o' h
  unfold reconcileDeletion at h
  split at h
  · split at h
    · split at h
      · simp only at h
        rw [hc, Option.some.injEq] at h
        subst h
        rfl
      · simp only [Option.some.injEq] at h
        subst h
        rfl
    · simp only [Option.some.injEq] at h
      subst h
      rfl
  · simp only at h
    rw [hc, Option.some.injEq] at h
    subst h
    rfl

/-- The create branch returns a nil error whenever it changes the stored
object's remote identifier away from zero. -/
theorem reconcileCreate_err_on_change (ops : ProviderOps π) (c : Cluster) (p : π)
    (issue : GitHubIssueObj) (token : String) (hc : c.issue = some issue)
    (h0 : issue.status.issueNumber = 0) :
    ∀ o', (reconcileCreate ops c p issue token).cluster.issue = some o' →
      o'.status.issueNumber ≠ 0 → (reconcileCreate ops c p issue token).err = none := by
  intro o' h hnz
  unfold reconcileCreate at h ⊢
  split at h
  · simp only at h
    rw [hc, Option.some.injEq] at h
    subst h
    exact absurd h0 hnz
  · rename_i created heq
    simp only [heq]

/-- **C7**: for every GitHubIssue object, `Status.IssueNumber` stays `0`
until a remote `Create` succeeds — if an invocation turns it non-zero, that
invocation performed exactly one `Create` call and returned no error — and
once non-zero it is preserved unchanged by every `Reconcile` invocation,
whatever the provider answers. -/
theorem issueNumber_zero_until_create (ops : ProviderOps π) (c : Cluster) (p : π)
    (o : GitHubIssueObj) (hc : c.issue = some o) :
    (∀ o', (Reconcile ops c p).cluster.issue = some o' → o.status.issueNumber ≠ 0 →
      o'.status.issueNumber = o.status.issueNumber) ∧
    (∀ o', (Reconcile ops c p).cluster.issue = some o' → o.status.issueNumber = 0 →
      o'.status.issueNumber ≠ 0 →
      ((Reconcile ops c p).trace.filter RemoteCall.isCreate).length = 1 ∧
      (Reconcile ops c p).err = none) := by
  constructor
  · intro o' h hnz
    unfold Reconcile at h
    split at h
    · rename_i heq
      rw [hc] at heq
      cases heq
    · rename_i issue heq
      rw [hc, Option.some.injEq] at heq
      subst heq
      split at h
      · simp only at h
        rw [hc, Option.some.injEq] at h
        subst h
        rfl
      · split at h
        · simp only at h
          rw [hc, Option.some.injEq] at h
          subst h
          rfl
        · by_cases hdel : o.deletionTimestampIsZero = false
          · rw [if_pos hdel] at h
            exact reconcileDeletion_number ops c p o _ hc o' h
          · rw [if_neg hdel] at h
            by_cases hfin : containsFinalizer o = false
            · rw [if_pos hfin] at h
              simp only [Option.some.injEq] at h
              subst h
              rfl
            · rw [if_neg hfin] at h
              by_cases h0 : o.status.issueNumber = 0
              · exact absurd h0 hnz
              · rw [if_neg h0] at h
                exact reconcileSync_number ops c p o _ hc o' h
  · intro o' h h0 hnz
    cases hs : c.secrets.lookup o.spec.tokenSecretRef with
    | none =>
      have hr : Reconcile ops c p =
          { cluster := c, provider := p, trace := [], result := {},
            err := some RErr.secretGetFailed } := by
        simp [Reconcile, hc, hs]
      rw [hr] at h
      simp only at h
      rw [hc, Option.some.injEq] at h
      subst h
      exact absurd h0 hnz
    | some data =>
      cases ht : data.lookup "token" with
      | none =>
        have hr : Reconcile ops c p =
            { cluster := c, provider := p, trace := [],
              result := { requeueAfterSec := 30 }, err := none } := by
          simp [Reconcile, hc, hs, ht]
        rw [hr] at h
        simp only at h
        rw [hc, Option.some.injEq] at h
        subst h
        exact absurd h0 hnz
      | some token =>
        cases hdel : o.deletionTimestampIsZero with
        | false =>
          have hr : Reconcile ops c p = reconcileDeletion ops c p o token := by
            simp [Reconcile, hc, hs, ht, hdel]
          rw [hr] at h
          have := reconcileDeletion_number ops c p o token hc o' h
          exact absurd (this.trans h0) hnz
        | true =>
          cases hfin : containsFinalizer o with
          | false =>
            have hr : Reconcile ops c p =
                { cluster := { c with issue := some (addFinalizer o) }, provider := p,
                  trace := [], result := { requeue := true }, err := none } := by
              simp [Reconcile, hc, hs, ht, hdel, hfin]
            rw [hr] at h
            simp only [Option.some.injEq] at h
            subst h
            exact absurd h0 hnz
          | true =>
            have hr : Reconcile ops c p = reconcileCreate ops c p o token := by
              simp [Reconcile, hc, hs, ht, hdel, hfin, h0]
            rw [hr] at h ⊢
            exact ⟨reconcileCreate_one_create ops c p o token,
              reconcileCreate_err_on_change ops c p o token hc h0 o' h hnz⟩

/-- Witness for **C7**: on the concrete in-sync object with remote
identifier 1, a reconciliation leaves the identifier at 1. -/
theorem issueNumber_zero_until_create_witness :
    exClusterSynced.issue = some exObjSynced ∧
    exObjSynced.status.issueNumber ≠ 0 ∧
    ∃ o', (Reconcile mockOps exClusterSynced exMock1).cluster.issue = some o' ∧
      o'.status.issueNumber = exObjSynced.status.issueNumber := by
  have ho : (Reconcile mockOps exClusterSynced exMock1).cluster.issue = some exObjSynced := by
    decide
  exact ⟨rfl, by decide, exObjSynced, ho,
    (issueNumber_zero_until_create mockOps exClusterSynced exMock1 exObjSynced rfl).1
      exObjSynced ho (by decide)⟩

end ControllerExercise
